import Mathlib

/-!
Verification of the mystery TURN/STUN relay server core: a shallow
embedding of the three source files

  * src/turn/src/processor/create_permission.rs
  * src/turn/src/processor/binding.rs
  * src/turn-server/src/server/router.rs

Pure data is translated directly; the effectful collaborators
(the STUN codec writer, the credential verifier, the port-binding
primitive, the observer, the UDP sockets) are modelled per the
interfaces the handlers use: the handlers return their responses
together with explicit logs of the effect calls they issue, and the
router is a state-transformer over an explicit session-table state.
-/

/-! ## Addresses -/

/-- An IP address, tagged with its address family (the Rust `IpAddr`).
The numeric payload stands for the address bits. -/
inductive IpAddr
  | v4 (bits : Nat)
  | v6 (bits : Nat)
deriving DecidableEq, Repr

/-- A transport address: IP plus port (the Rust `SocketAddr`). -/
structure SocketAddr where
  ip : IpAddr
  port : Nat
deriving DecidableEq, Repr

/-! ## STUN message model

Modelled from the spec: the codec collaborator ("message writer that
extends a fresh response buffer from a request's transaction id,
appends typed attributes, and finalizes, optionally computing a
message integrity signature from a given key") is external to the
excerpt, so a finalized message is modelled as its method, its ordered
attribute list, and the optional integrity key handed to `flush`. -/

/-- A 16-byte long-term-credential key, as produced by `verify_message`. -/
abbrev Key := List Nat

/-- STUN transaction kind (the `faster_stun::Kind` values the handlers use). -/
inductive Kind
  | Request
  | Response
  | Error
deriving DecidableEq, Repr

/-- STUN method (the two methods of this excerpt). -/
inductive Method
  | Binding (k : Kind)
  | CreatePermission (k : Kind)
deriving DecidableEq, Repr

/-- Error kinds used by the CreatePermission handler
(`faster_stun::attribute::ErrKind`). -/
inductive ErrKind
  | BadRequest
  | Unauthorized
  | Forbidden
deriving DecidableEq, Repr

/-- The RFC 8489 numeric code of each error kind. -/
def ErrKind.code : ErrKind → Nat
  | .BadRequest => 400
  | .Unauthorized => 401
  | .Forbidden => 403

/-- The typed attributes appended by the two handlers. -/
inductive Attr
  | ErrorCode (e : ErrKind)
  | Realm (r : String)
  | Software (s : String)
  | XorPeerAddress (a : SocketAddr)
  | XorMappedAddress (a : SocketAddr)
  | MappedAddress (a : SocketAddr)
  | ResponseOrigin (a : SocketAddr)
deriving DecidableEq, Repr

/-- A finalized STUN message: method, appended attributes in order, and
the integrity key given to `flush` (`none` = unsigned). -/
structure StunMessage where
  method : Method
  attributes : List Attr
  integrity : Option Key
deriving DecidableEq, Repr

/-- In-progress response construction (the codec `MessageWriter`). -/
structure MessageWriter where
  method : Method
  attrs : List Attr
deriving DecidableEq, Repr

/-- `MessageWriter::extend`: start a response of the given method from the
request's transaction id (the transaction id itself is codec detail). -/
def MessageWriter.extend (m : Method) : MessageWriter :=
  { method := m, attrs := [] }

/-- `MessageWriter::append`: append one typed attribute. -/
def MessageWriter.append (w : MessageWriter) (a : Attr) : MessageWriter :=
  { w with attrs := w.attrs ++ [a] }

/-- `MessageWriter::flush`: finalize, optionally signing with a key. -/
def MessageWriter.flush (w : MessageWriter) (key : Option Key) : StunMessage :=
  { method := w.method, attributes := w.attrs, integrity := key }

/-- Delivery classification of a reply payload (`StunClass`). -/
inductive StunClass
  | Message
  | Channel
deriving DecidableEq, Repr

/-- The `Response` value a handler returns: the built message, its framing
class, and the optional relay address (`Response::new(bytes, class, relay)`). -/
structure Response where
  message : StunMessage
  kind : StunClass
  relay : Option SocketAddr
deriving DecidableEq, Repr

/-! ## Context -/

/-- The shared environment visible to handlers (`ctx.env`): the realm
string and the server's externally-visible relay address. -/
structure Env where
  realm : String
  external : SocketAddr
deriving DecidableEq, Repr

/-- Per-request context: requester address, server external address, and
the shared environment handle. -/
structure Context where
  addr : SocketAddr
  external : SocketAddr
  env : Env
deriving DecidableEq, Repr

/-- The server identification string (`SOFTWARE` constant of the turn
crate; its concrete value is outside the excerpt and opaque to every
claim). -/
def SOFTWARE : String := "mystery.turn"

/-! ## CreatePermission handler (src/turn/src/processor/create_permission.rs)

The parsed inbound request is modelled by the attribute lookups the
handler performs: `reader.get::<XorPeerAddress>()`.  The authentication
collaborator `verify_message` and the router primitive `bind_port` are
passed in as function parameters, and every call the handler makes to
`bind_port` and to the observer is recorded in the returned outcome. -/

/-- The inbound parsed message, as the CreatePermission handler reads it:
an optional XOR-PEER-ADDRESS attribute plus the opaque credential
material the verifier inspects. -/
structure Request where
  xorPeerAddress : Option SocketAddr
  credentials : Option (String × Key)
deriving DecidableEq, Repr

/-- `reject`: build a CreatePermission error response carrying the error
code and the configured realm, unsigned. -/
def CreatePermission.reject (ctx : Context) (err : ErrKind) : Response :=
  let pack := MessageWriter.extend (Method.CreatePermission Kind.Error)
  let pack := pack.append (Attr.ErrorCode err)
  let pack := pack.append (Attr.Realm ctx.env.realm)
  { message := pack.flush none, kind := StunClass.Message, relay := none }

/-- `resolve`: build a CreatePermission success response carrying only the
software attribute, integrity-signed with the verified key. -/
def CreatePermission.resolve (key : Key) : Response :=
  let pack := MessageWriter.extend (Method.CreatePermission Kind.Response)
  let pack := pack.append (Attr.Software SOFTWARE)
  { message := pack.flush (some key), kind := StunClass.Message, relay := none }

/-- Outcome of processing one CreatePermission request: the response plus
the log of `bind_port` calls (client address, port argument) and of
observer `create_permission` notifications. -/
structure CreatePermOutcome where
  response : Response
  bindCalls : List (SocketAddr × Nat)
  observed : List (SocketAddr × String × SocketAddr)
deriving DecidableEq, Repr

/-- `process` of create_permission.rs: missing XOR-PEER-ADDRESS ⇒ 400;
peer IP different from the server's external relay IP ⇒ 403;
`verify_message` failure ⇒ 401; `bind_port(ctx.addr, peer.port(), None)`
refused ⇒ 403; otherwise notify the observer and return the signed
success response. -/
def CreatePermission.process (ctx : Context) (req : Request)
    (verifyMessage : Context → Request → Option (String × Key))
    (bindPort : SocketAddr → Nat → Option Nat) : CreatePermOutcome :=
  match req.xorPeerAddress with
  | none =>
    { response := CreatePermission.reject ctx ErrKind.BadRequest
      bindCalls := []
      observed := [] }
  | some peer =>
    if ctx.env.external.ip ≠ peer.ip then
      { response := CreatePermission.reject ctx ErrKind.Forbidden
        bindCalls := []
        observed := [] }
    else
      match verifyMessage ctx req with
      | none =>
        { response := CreatePermission.reject ctx ErrKind.Unauthorized
          bindCalls := []
          observed := [] }
      | some (username, key) =>
        match bindPort ctx.addr peer.port with
        | none =>
          { response := CreatePermission.reject ctx ErrKind.Forbidden
            bindCalls := [(ctx.addr, peer.port)]
            observed := [] }
        | some _ =>
          { response := CreatePermission.resolve key
            bindCalls := [(ctx.addr, peer.port)]
            observed := [(ctx.addr, username, peer)] }

/-! ## Binding handler (src/turn/src/processor/binding.rs) -/

/-- Outcome of processing one Binding request: the finalized response
message, the destination address it is returned to, and the observer
`binding` notifications issued. -/
structure BindingOutcome where
  response : StunMessage
  dest : SocketAddr
  observed : List SocketAddr
deriving DecidableEq, Repr

/-- `process` of binding.rs: unconditionally build a Binding response with
XOR-MAPPED-ADDRESS and MAPPED-ADDRESS set to the requester's observed
address, RESPONSE-ORIGIN set to the server's external address, and the
software attribute; flush unsigned; notify the observer. -/
def Binding.process (ctx : Context) : BindingOutcome :=
  let pack := MessageWriter.extend (Method.Binding Kind.Response)
  let pack := pack.append (Attr.XorMappedAddress ctx.addr)
  let pack := pack.append (Attr.MappedAddress ctx.addr)
  let pack := pack.append (Attr.ResponseOrigin ctx.external)
  let pack := pack.append (Attr.Software SOFTWARE)
  { response := pack.flush none, dest := ctx.addr, observed := [ctx.addr] }

/-! ## Transport Router (src/turn-server/src/server/router.rs)

The session table (`RwLock<HashMap<SocketAddr, Sender<Bytes>>>`) is
modelled as an association list with the HashMap operations `insert`
(replace the value at an existing key, else add), `get` and `remove`;
a `Sender<Bytes>` is modelled as a channel record carrying a fresh
identity, its closed flag (the receiving task gone) and the queue of
pending payloads; the two UDP egress sockets are modelled as logs of
the datagrams sent through them, with the fallibility of the OS-level
`send_to` injected as an explicit outcome parameter; an aborting
`.expect(..)` panic is an `Except.error` carrying the panic message. -/

/-- A `tokio::sync::mpsc::Sender<Bytes>` endpoint: `id` identifies the
channel object, `closed` holds iff the receiving side is gone (so
`send` fails), `queue` the payloads enqueued so far, in order. -/
structure Channel where
  id : Nat
  closed : Bool
  queue : List (List Nat)
deriving DecidableEq, Repr

/-- HashMap `get`: the value stored at a key, if any. -/
def lookupKey : List (SocketAddr × Channel) → SocketAddr → Option Channel
  | [], _ => none
  | p :: rest, a => if p.1 = a then some p.2 else lookupKey rest a

/-- HashMap `insert`: replace the value at an existing key, else add. -/
def insertKey : List (SocketAddr × Channel) → SocketAddr → Channel →
    List (SocketAddr × Channel)
  | [], a, c => [(a, c)]
  | p :: rest, a, c => if p.1 = a then (a, c) :: rest else p :: insertKey rest a c

/-- HashMap `remove`: drop the entry at a key. -/
def removeKey (l : List (SocketAddr × Channel)) (a : SocketAddr) :
    List (SocketAddr × Channel) :=
  l.filter fun p => decide (p.1 ≠ a)

/-- Whether one OS-level `send_to` succeeds (io::Result collapsed to its
success bit; the payload of the success case is irrelevant here). -/
inductive SendOutcome
  | ok
  | err
deriving DecidableEq, Repr

/-- The state of the two egress sockets: each is the log of datagrams
(data, destination) it has sent. -/
structure UdpProxyState where
  v4log : List (List Nat × SocketAddr)
  v6log : List (List Nat × SocketAddr)
deriving DecidableEq, Repr

/-- A socket `send_to`: on success append the datagram to the socket's
log, on failure report the error. -/
def UdpSocket.sendTo (log : List (List Nat × SocketAddr)) (outcome : SendOutcome)
    (data : List Nat) (addr : SocketAddr) :
    Except Unit (List (List Nat × SocketAddr)) :=
  match outcome with
  | .ok => Except.ok (log ++ [(data, addr)])
  | .err => Except.error ()

/-- `UdpProxy::send`: pick the socket whose family matches `addr`, send,
and `.expect(..)` the result — a socket failure becomes a panic
(modelled as `Except.error` with the panic message). -/
def UdpProxy.send (st : UdpProxyState) (outcome : SendOutcome)
    (data : List Nat) (addr : SocketAddr) : Except String UdpProxyState :=
  let res : Except Unit UdpProxyState :=
    match addr.ip with
    | .v4 _ => (UdpSocket.sendTo st.v4log outcome data addr).map
        fun l => { st with v4log := l }
    | .v6 _ => (UdpSocket.sendTo st.v6log outcome data addr).map
        fun l => { st with v6log := l }
  match res with
  | .ok st2 => Except.ok st2
  | .error _ => Except.error "there is an error in the udp proxy in tcp!"

/-- The `Router` state: the session table plus the UDP egress, and a
counter supplying the identity of the next channel `channel(10)`
creates. -/
structure RouterState where
  senders : List (SocketAddr × Channel)
  udp : UdpProxyState
  nextId : Nat
deriving DecidableEq, Repr

/-- `Router::new()`: empty session table, fresh sockets. -/
def RouterState.initial : RouterState :=
  { senders := [], udp := { v4log := [], v6log := [] }, nextId := 0 }

/-- `Router::find`: true iff a session entry is registered for `addr`. -/
def Router.find (st : RouterState) (addr : SocketAddr) : Bool :=
  (lookupKey st.senders addr).isSome

/-- `Router::get_receiver` (register_session): create a fresh channel,
insert its sender into the table for `addr` (superseding any prior
entry), and hand the receiving end to the caller — returned here as the
new channel's identity. -/
def Router.getReceiver (st : RouterState) (addr : SocketAddr) :
    RouterState × Nat :=
  ({ st with
      senders := insertKey st.senders addr
        { id := st.nextId, closed := false, queue := [] }
      nextId := st.nextId + 1 },
   st.nextId)

/-- `Router::remove`: drop (and thereby close) the sender stored for
`addr`, if any. -/
def Router.remove (st : RouterState) (addr : SocketAddr) : RouterState :=
  { st with senders := removeKey st.senders addr }

/-- `Router::send` (deliver): if a sender is registered for `addr`,
enqueue the payload into it; if that fails (channel closed) remove the
entry; if no sender is registered and `realy_udp` is set, fall back to
the UDP egress.  The function itself returns no error to its caller —
the only non-`ok` outcome is the panic propagated from
`UdpProxy::send`. -/
def Router.send (st : RouterState) (outcome : SendOutcome) (addr : SocketAddr)
    (data : List Nat) (realyUdp : Bool) : Except String RouterState :=
  match lookupKey st.senders addr with
  | some ch =>
    if ch.closed then
      Except.ok (Router.remove st addr)
    else
      Except.ok { st with
        senders := insertKey st.senders addr { ch with queue := ch.queue ++ [data] } }
  | none =>
    if realyUdp then
      match UdpProxy.send st.udp outcome data addr with
      | .ok u => Except.ok { st with udp := u }
      | .error e => Except.error e
    else
      Except.ok st

/-- One externally drivable Router operation (a successful-socket run:
`deliver` is taken with the OS send succeeding, since a socket failure
panics and ends the run). -/
inductive RouterOp
  | register (addr : SocketAddr)
  | deliver (addr : SocketAddr) (data : List Nat) (fallback : Bool)
  | evict (addr : SocketAddr)
deriving DecidableEq, Repr

/-- Apply one Router operation to the state. -/
def RouterState.step (st : RouterState) : RouterOp → RouterState
  | .register a => (Router.getReceiver st a).1
  | .deliver a data fb =>
    match Router.send st SendOutcome.ok a data fb with
    | .ok st2 => st2
    | .error _ => st
  | .evict a => Router.remove st a

/-- Run a sequence of Router operations from the initial state. -/
def RouterState.run (ops : List RouterOp) : RouterState :=
  ops.foldl RouterState.step RouterState.initial

/-! ## Concrete fixtures -/

/-- A server external relay address (IPv4). -/
def extAddr : SocketAddr := ⟨IpAddr.v4 0x7F000001, 3478⟩

/-- A client transport address. -/
def clientAddr : SocketAddr := ⟨IpAddr.v4 0xC0A80001, 5000⟩

/-- A concrete request context over `extAddr` / `clientAddr`. -/
def ctxEx : Context :=
  { addr := clientAddr
    external := extAddr
    env := { realm := "mystery.realm", external := extAddr } }

/-- A verifier that accepts every message with a fixed username/key. -/
def verifyAccept : Context → Request → Option (String × Key) :=
  fun _ _ => some ("user1", List.replicate 16 7)

/-- A verifier that fails on every message (absent or invalid
credentials). -/
def verifyRejectAll : Context → Request → Option (String × Key) :=
  fun _ _ => none

/-- A `bind_port` that honors every binding. -/
def bindAccept : SocketAddr → Nat → Option Nat :=
  fun _ _ => some 0

/-- A request whose XOR-PEER-ADDRESS carries the server's external IP and
the given port. -/
def reqWithPeer (p : Nat) : Request :=
  { xorPeerAddress := some ⟨extAddr.ip, p⟩, credentials := none }

/-- A request with no XOR-PEER-ADDRESS attribute. -/
def reqNoPeer : Request :=
  { xorPeerAddress := none, credentials := none }

/-- A request whose XOR-PEER-ADDRESS IP differs from the server's
external relay IP. -/
def reqBadPeer : Request :=
  { xorPeerAddress := some ⟨IpAddr.v4 0x08080808, 4000⟩, credentials := none }

/-! ## CreatePermission claims -/

/-- Claim C4: a CreatePermission request with no XOR-PEER-ADDRESS
attribute yields a 400 BadRequest error response, regardless of what
credentials the request carries (the verifier and the credential field
are universally quantified and the result does not depend on them). -/
theorem createPermission_missing_peer_badRequest (ctx : Context) (req : Request)
    (verifyMessage : Context → Request → Option (String × Key))
    (bindPort : SocketAddr → Nat → Option Nat)
    (h : req.xorPeerAddress = none) :
    (CreatePermission.process ctx req verifyMessage bindPort).response =
      CreatePermission.reject ctx ErrKind.BadRequest ∧
    Attr.ErrorCode ErrKind.BadRequest ∈
      (CreatePermission.process ctx req verifyMessage bindPort).response.message.attributes ∧
    ErrKind.code ErrKind.BadRequest = 400 ∧
    (CreatePermission.process ctx req verifyMessage bindPort).bindCalls = [] := by
  unfold CreatePermission.process
  rw [h]
  simp [CreatePermission.reject, MessageWriter.extend, MessageWriter.append,
    MessageWriter.flush, ErrKind.code]

/-- Witness for C4 at a concrete request with no peer attribute. -/
theorem createPermission_missing_peer_badRequest_witness :
    reqNoPeer.xorPeerAddress = none ∧
    ((CreatePermission.process ctxEx reqNoPeer verifyAccept bindAccept).response =
      CreatePermission.reject ctxEx ErrKind.BadRequest ∧
    Attr.ErrorCode ErrKind.BadRequest ∈
      (CreatePermission.process ctxEx reqNoPeer verifyAccept bindAccept).response.message.attributes ∧
    ErrKind.code ErrKind.BadRequest = 400 ∧
    (CreatePermission.process ctxEx reqNoPeer verifyAccept bindAccept).bindCalls = []) :=
  ⟨rfl, createPermission_missing_peer_badRequest ctxEx reqNoPeer verifyAccept bindAccept rfl⟩

/-- Claim C3: a CreatePermission request whose XOR-PEER-ADDRESS IP
differs from the server's external relay IP yields the 403 Forbidden
error response, with no `bind_port` call; the verifier is universally
quantified and the result does not mention it, so the 403 is produced
even when credentials are absent or invalid — the authentication check
is never reached. -/
theorem createPermission_family_mismatch_forbidden (ctx : Context) (req : Request)
    (peer : SocketAddr)
    (verifyMessage : Context → Request → Option (String × Key))
    (bindPort : SocketAddr → Nat → Option Nat)
    (hpeer : req.xorPeerAddress = some peer)
    (hip : ctx.env.external.ip ≠ peer.ip) :
    (CreatePermission.process ctx req verifyMessage bindPort).response =
      CreatePermission.reject ctx ErrKind.Forbidden ∧
    Attr.ErrorCode ErrKind.Forbidden ∈
      (CreatePermission.process ctx req verifyMessage bindPort).response.message.attributes ∧
    ErrKind.code ErrKind.Forbidden = 403 ∧
    (CreatePermission.process ctx req verifyMessage bindPort).bindCalls = [] := by
  unfold CreatePermission.process
  rw [hpeer]
  simp [hip, CreatePermission.reject, MessageWriter.extend, MessageWriter.append,
    MessageWriter.flush, ErrKind.code]

/-- Witness for C3: a peer IP other than the external relay IP, with a
verifier that fails every message (credentials omitted). -/
theorem createPermission_family_mismatch_forbidden_witness :
    reqBadPeer.xorPeerAddress = some ⟨IpAddr.v4 0x08080808, 4000⟩ ∧
    ctxEx.env.external.ip ≠ IpAddr.v4 0x08080808 ∧
    ((CreatePermission.process ctxEx reqBadPeer verifyRejectAll bindAccept).response =
      CreatePermission.reject ctxEx ErrKind.Forbidden ∧
    Attr.ErrorCode ErrKind.Forbidden ∈
      (CreatePermission.process ctxEx reqBadPeer verifyRejectAll bindAccept).response.message.attributes ∧
    ErrKind.code ErrKind.Forbidden = 403 ∧
    (CreatePermission.process ctxEx reqBadPeer verifyRejectAll bindAccept).bindCalls = []) :=
  ⟨rfl, by decide,
    createPermission_family_mismatch_forbidden ctxEx reqBadPeer _ verifyRejectAll
      bindAccept rfl (by decide)⟩

/-- Claim C5: a CreatePermission request whose peer address passes the
identity check but whose credential verification fails yields the 401
Unauthorized error response, and that response carries the configured
realm attribute. -/
theorem createPermission_auth_failure_unauthorized (ctx : Context) (req : Request)
    (peer : SocketAddr)
    (verifyMessage : Context → Request → Option (String × Key))
    (bindPort : SocketAddr → Nat → Option Nat)
    (hpeer : req.xorPeerAddress = some peer)
    (hip : ctx.env.external.ip = peer.ip)
    (hv : verifyMessage ctx req = none) :
    (CreatePermission.process ctx req verifyMessage bindPort).response =
      CreatePermission.reject ctx ErrKind.Unauthorized ∧
    Attr.ErrorCode ErrKind.Unauthorized ∈
      (CreatePermission.process ctx req verifyMessage bindPort).response.message.attributes ∧
    Attr.Realm ctx.env.realm ∈
      (CreatePermission.process ctx req verifyMessage bindPort).response.message.attributes ∧
    ErrKind.code ErrKind.Unauthorized = 401 := by
  unfold CreatePermission.process
  rw [hpeer]
  simp [hip, hv, CreatePermission.reject, MessageWriter.extend, MessageWriter.append,
    MessageWriter.flush, ErrKind.code]

/-- Witness for C5 at a concrete valid-peer request with a failing
verifier. -/
theorem createPermission_auth_failure_unauthorized_witness :
    (reqWithPeer 4000).xorPeerAddress = some ⟨extAddr.ip, 4000⟩ ∧
    ctxEx.env.external.ip = extAddr.ip ∧
    verifyRejectAll ctxEx (reqWithPeer 4000) = none ∧
    ((CreatePermission.process ctxEx (reqWithPeer 4000) verifyRejectAll bindAccept).response =
      CreatePermission.reject ctxEx ErrKind.Unauthorized ∧
    Attr.ErrorCode ErrKind.Unauthorized ∈
      (CreatePermission.process ctxEx (reqWithPeer 4000) verifyRejectAll bindAccept).response.message.attributes ∧
    Attr.Realm ctxEx.env.realm ∈
      (CreatePermission.process ctxEx (reqWithPeer 4000) verifyRejectAll bindAccept).response.message.attributes ∧
    ErrKind.code ErrKind.Unauthorized = 401) :=
  ⟨rfl, rfl, rfl,
    createPermission_auth_failure_unauthorized ctxEx (reqWithPeer 4000) _
      verifyRejectAll bindAccept rfl rfl rfl⟩

/-- Counterexample for C1: two fully valid requests identical except for
the XOR-PEER-ADDRESS attribute's port field produce `bind_port` calls
whose port arguments track that field (1234 and 5678 respectively) —
the handler passes `peer.port()` straight through, so the port argument
of the binding call IS taken from the peer attribute's port field. -/
theorem createPermission_port_from_peer_attribute_cex :
    (CreatePermission.process ctxEx (reqWithPeer 1234) verifyAccept bindAccept).bindCalls =
      [(clientAddr, 1234)] ∧
    (CreatePermission.process ctxEx (reqWithPeer 5678) verifyAccept bindAccept).bindCalls =
      [(clientAddr, 5678)] ∧
    (1234 : Nat) ≠ 5678 := by
  decide

/-- Claim C1 (amended): for every fully valid CreatePermission request,
processing results in exactly one `bind_port` call whose arguments are
the requesting client's transport address and the port value of the
XOR-PEER-ADDRESS attribute, and the success response is
integrity-signed with the verified key. -/
theorem createPermission_success_bind_call (ctx : Context) (req : Request)
    (peer : SocketAddr) (u : String) (k : Key) (tok : Nat)
    (verifyMessage : Context → Request → Option (String × Key))
    (bindPort : SocketAddr → Nat → Option Nat)
    (hpeer : req.xorPeerAddress = some peer)
    (hip : ctx.env.external.ip = peer.ip)
    (hv : verifyMessage ctx req = some (u, k))
    (hb : bindPort ctx.addr peer.port = some tok) :
    (CreatePermission.process ctx req verifyMessage bindPort).bindCalls =
      [(ctx.addr, peer.port)] ∧
    (CreatePermission.process ctx req verifyMessage bindPort).response =
      CreatePermission.resolve k ∧
    (CreatePermission.process ctx req verifyMessage bindPort).response.message.integrity =
      some k ∧
    (CreatePermission.process ctx req verifyMessage bindPort).observed =
      [(ctx.addr, u, peer)] := by
  unfold CreatePermission.process
  rw [hpeer]
  simp [hip, hv, hb, CreatePermission.resolve, MessageWriter.extend,
    MessageWriter.append, MessageWriter.flush]

/-- Witness for the amended C1 at a concrete fully valid request. -/
theorem createPermission_success_bind_call_witness :
    (reqWithPeer 1234).xorPeerAddress = some ⟨extAddr.ip, 1234⟩ ∧
    ctxEx.env.external.ip = extAddr.ip ∧
    verifyAccept ctxEx (reqWithPeer 1234) = some ("user1", List.replicate 16 7) ∧
    bindAccept ctxEx.addr 1234 = some 0 ∧
    ((CreatePermission.process ctxEx (reqWithPeer 1234) verifyAccept bindAccept).bindCalls =
      [(ctxEx.addr, 1234)] ∧
    (CreatePermission.process ctxEx (reqWithPeer 1234) verifyAccept bindAccept).response =
      CreatePermission.resolve (List.replicate 16 7) ∧
    (CreatePermission.process ctxEx (reqWithPeer 1234) verifyAccept bindAccept).response.message.integrity =
      some (List.replicate 16 7) ∧
    (CreatePermission.process ctxEx (reqWithPeer 1234) verifyAccept bindAccept).observed =
      [(ctxEx.addr, "user1", ⟨extAddr.ip, 1234⟩)]) :=
  ⟨rfl, rfl, rfl, rfl,
    createPermission_success_bind_call ctxEx (reqWithPeer 1234) _ _ _ _
      verifyAccept bindAccept rfl rfl rfl rfl⟩

/-- Counterexample for C2: the 400 BadRequest error response built for a
CreatePermission request with a missing mandatory attribute DOES
contain the realm attribute — `reject` appends the configured realm
unconditionally, for every error kind. -/
theorem createPermission_badRequest_realm_cex :
    Attr.ErrorCode ErrKind.BadRequest ∈
      (CreatePermission.process ctxEx reqNoPeer verifyAccept bindAccept).response.message.attributes ∧
    Attr.Realm "mystery.realm" ∈
      (CreatePermission.process ctxEx reqNoPeer verifyAccept bindAccept).response.message.attributes := by
  decide

/-- Claim C2 (amended): every CreatePermission request rejected with 400
BadRequest because the mandatory XOR-PEER-ADDRESS attribute is missing
gets an error response that DOES contain the configured realm attribute
(the handler's `reject` appends the realm to every error response). -/
theorem createPermission_badRequest_includes_realm (ctx : Context) (req : Request)
    (verifyMessage : Context → Request → Option (String × Key))
    (bindPort : SocketAddr → Nat → Option Nat)
    (h : req.xorPeerAddress = none) :
    (CreatePermission.process ctx req verifyMessage bindPort).response.message.method =
      Method.CreatePermission Kind.Error ∧
    Attr.ErrorCode ErrKind.BadRequest ∈
      (CreatePermission.process ctx req verifyMessage bindPort).response.message.attributes ∧
    Attr.Realm ctx.env.realm ∈
      (CreatePermission.process ctx req verifyMessage bindPort).response.message.attributes := by
  unfold CreatePermission.process
  rw [h]
  simp [CreatePermission.reject, MessageWriter.extend, MessageWriter.append,
    MessageWriter.flush]

/-- Witness for the amended C2 at a concrete request with no peer
attribute. -/
theorem createPermission_badRequest_includes_realm_witness :
    reqNoPeer.xorPeerAddress = none ∧
    ((CreatePermission.process ctxEx reqNoPeer verifyRejectAll bindAccept).response.message.method =
      Method.CreatePermission Kind.Error ∧
    Attr.ErrorCode ErrKind.BadRequest ∈
      (CreatePermission.process ctxEx reqNoPeer verifyRejectAll bindAccept).response.message.attributes ∧
    Attr.Realm ctxEx.env.realm ∈
      (CreatePermission.process ctxEx reqNoPeer verifyRejectAll bindAccept).response.message.attributes) :=
  ⟨rfl, createPermission_badRequest_includes_realm ctxEx reqNoPeer verifyRejectAll
    bindAccept rfl⟩

/-- Claim C6: every well-formed Binding request succeeds with no
authentication input at all (the handler consults no verifier and is
total): the response carries XOR-MAPPED-ADDRESS and MAPPED-ADDRESS both
encoding the requester's observed transport address, RESPONSE-ORIGIN
encoding the server's configured external address, is unsigned, and the
observer is notified of the discovered mapping. -/
theorem binding_response_attributes (ctx : Context) :
    (Binding.process ctx).response.method = Method.Binding Kind.Response ∧
    Attr.XorMappedAddress ctx.addr ∈ (Binding.process ctx).response.attributes ∧
    Attr.MappedAddress ctx.addr ∈ (Binding.process ctx).response.attributes ∧
    Attr.ResponseOrigin ctx.external ∈ (Binding.process ctx).response.attributes ∧
    (Binding.process ctx).response.integrity = none ∧
    (Binding.process ctx).observed = [ctx.addr] := by
  simp [Binding.process, MessageWriter.extend, MessageWriter.append,
    MessageWriter.flush]

/-! ## Router lemmas -/

/-- `UdpProxy::send` always succeeds when the OS-level socket send
succeeds. -/
lemma udpProxy_send_ok (st : UdpProxyState) (data : List Nat) (addr : SocketAddr) :
    ∃ u, UdpProxy.send st SendOutcome.ok data addr = Except.ok u := by
  obtain ⟨ip, port⟩ := addr
  cases ip with
  | v4 b => exact ⟨_, rfl⟩
  | v6 b => exact ⟨_, rfl⟩

/-- Looking up the key just inserted yields the inserted value. -/
lemma lookupKey_insertKey_self (l : List (SocketAddr × Channel)) (a : SocketAddr)
    (c : Channel) : lookupKey (insertKey l a c) a = some c := by
  induction l with
  | nil => simp [insertKey, lookupKey]
  | cons p rest ih =>
    by_cases hp : p.1 = a
    · simp [insertKey, hp, lookupKey]
    · simp [insertKey, hp, lookupKey, ih]

/-- Looking up a removed key yields nothing. -/
lemma lookupKey_removeKey_self (l : List (SocketAddr × Channel)) (a : SocketAddr) :
    lookupKey (removeKey l a) a = none := by
  induction l with
  | nil => rfl
  | cons p rest ih =>
    by_cases hp : p.1 = a
    · simpa [removeKey, List.filter_cons, hp] using ih
    · simpa [removeKey, List.filter_cons, hp, lookupKey] using ih

/-- A key present after an insert is the inserted key or was present
before. -/
lemma mem_keys_insertKey (l : List (SocketAddr × Channel)) (a x : SocketAddr)
    (c : Channel) (h : x ∈ (insertKey l a c).map Prod.fst) :
    x = a ∨ x ∈ l.map Prod.fst := by
  induction l with
  | nil =>
    simp only [insertKey, List.map_cons, List.map_nil, List.mem_cons,
      List.not_mem_nil, or_false] at h
    exact Or.inl h
  | cons p rest ih =>
    simp only [insertKey] at h
    simp only [List.map_cons, List.mem_cons]
    by_cases hp : p.1 = a
    · rw [if_pos hp] at h
      simp only [List.map_cons, List.mem_cons] at h
      rcases h with h | h
      · exact Or.inl h
      · exact Or.inr (Or.inr h)
    · rw [if_neg hp] at h
      simp only [List.map_cons, List.mem_cons] at h
      rcases h with h | h
      · exact Or.inr (Or.inl h)
      · rcases ih h with h1 | h1
        · exact Or.inl h1
        · exact Or.inr (Or.inr h1)

/-- HashMap `insert` keeps the keys of the table distinct. -/
lemma nodup_keys_insertKey (l : List (SocketAddr × Channel)) (a : SocketAddr)
    (c : Channel) (h : (l.map Prod.fst).Nodup) :
    ((insertKey l a c).map Prod.fst).Nodup := by
  induction l with
  | nil => simp [insertKey]
  | cons p rest ih =>
    simp only [List.map_cons, List.nodup_cons] at h
    by_cases hp : p.1 = a
    · simp only [insertKey, hp, if_pos, List.map_cons, List.nodup_cons]
      exact ⟨hp ▸ h.1, h.2⟩
    · simp only [insertKey, hp, if_neg, ite_false, List.map_cons, List.nodup_cons]
      refine ⟨fun hmem => ?_, ih h.2⟩
      rcases mem_keys_insertKey rest a p.1 c hmem with h1 | h1
      · exact hp h1
      · exact h.1 h1

/-- HashMap `remove` keeps the keys of the table distinct. -/
lemma nodup_keys_removeKey (l : List (SocketAddr × Channel)) (a : SocketAddr)
    (h : (l.map Prod.fst).Nodup) : ((removeKey l a).map Prod.fst).Nodup :=
  h.sublist ((List.filter_sublist l).map Prod.fst)

/-- Every Router operation keeps the keys of the session table
distinct. -/
lemma step_preserves_nodup (st : RouterState) (op : RouterOp)
    (h : (st.senders.map Prod.fst).Nodup) :
    ((RouterState.step st op).senders.map Prod.fst).Nodup := by
  cases op with
  | register a => exact nodup_keys_insertKey _ _ _ h
  | evict a => exact nodup_keys_removeKey _ _ h
  | deliver a data fb =>
    cases hL : lookupKey st.senders a with
    | some ch =>
      by_cases hc : ch.closed
      · simpa [RouterState.step, Router.send, hL, hc, Router.remove] using
          nodup_keys_removeKey _ a h
      · simpa [RouterState.step, Router.send, hL, hc] using
          nodup_keys_insertKey st.senders a { ch with queue := ch.queue ++ [data] } h
    | none =>
      cases fb with
      | false => simpa [RouterState.step, Router.send, hL] using h
      | true =>
        obtain ⟨u, hu⟩ := udpProxy_send_ok st.udp data a
        simpa [RouterState.step, Router.send, hL, hu] using h

/-- Distinct keys are an invariant of every run prefix. -/
lemma foldl_step_nodup (ops : List RouterOp) (st : RouterState)
    (h : (st.senders.map Prod.fst).Nodup) :
    ((ops.foldl RouterState.step st).senders.map Prod.fst).Nodup := by
  induction ops generalizing st with
  | nil => exact h
  | cons op rest ih => exact ih _ (step_preserves_nodup st op h)

/-! ## Router claims -/

/-- Claim C7: delivering to an address with no registered session entry
with the UDP fallback enabled sends the payload over the egress socket
whose address family matches the destination (the IPv4 socket log grows
for an IPv4 address, the IPv6 log for an IPv6 address, the other log
untouched); with the fallback disabled nothing is sent and the state is
unchanged. -/
theorem router_deliver_udp_fallback (st : RouterState) (addr : SocketAddr)
    (data : List Nat) (h : lookupKey st.senders addr = none) :
    Router.send st SendOutcome.ok addr data true =
      Except.ok { st with udp :=
        match addr.ip with
        | IpAddr.v4 _ => { st.udp with v4log := st.udp.v4log ++ [(data, addr)] }
        | IpAddr.v6 _ => { st.udp with v6log := st.udp.v6log ++ [(data, addr)] } } ∧
    Router.send st SendOutcome.ok addr data false = Except.ok st := by
  obtain ⟨ip, port⟩ := addr
  cases ip with
  | v4 b => simp [Router.send, UdpProxy.send, UdpSocket.sendTo, Except.map, h]
  | v6 b => simp [Router.send, UdpProxy.send, UdpSocket.sendTo, Except.map, h]

/-- Witness for C7 from the initial (empty-table) state at a concrete
IPv4 address. -/
theorem router_deliver_udp_fallback_witness :
    lookupKey RouterState.initial.senders clientAddr = none ∧
    (Router.send RouterState.initial SendOutcome.ok clientAddr [1, 2] true =
      Except.ok { RouterState.initial with udp :=
        match clientAddr.ip with
        | IpAddr.v4 _ => { RouterState.initial.udp with
            v4log := RouterState.initial.udp.v4log ++ [([1, 2], clientAddr)] }
        | IpAddr.v6 _ => { RouterState.initial.udp with
            v6log := RouterState.initial.udp.v6log ++ [([1, 2], clientAddr)] } } ∧
    Router.send RouterState.initial SendOutcome.ok clientAddr [1, 2] false =
      Except.ok RouterState.initial) :=
  ⟨rfl, router_deliver_udp_fallback RouterState.initial clientAddr [1, 2] rfl⟩

/-- Claim C8: a delivery that finds a registered session whose channel is
closed removes that session entry from the table, and the failure is
not reported to the caller — `Router::send` still returns normally
(`Except.ok`, the unit return of the Rust function), for every socket
outcome and fallback flag. -/
theorem router_deliver_dead_session_evicts (st : RouterState) (oc : SendOutcome)
    (addr : SocketAddr) (data : List Nat) (fb : Bool) (ch : Channel)
    (h1 : lookupKey st.senders addr = some ch)
    (h2 : ch.closed = true) :
    Router.send st oc addr data fb = Except.ok (Router.remove st addr) ∧
    lookupKey (Router.remove st addr).senders addr = none := by
  refine ⟨?_, ?_⟩
  · simp [Router.send, h1, h2]
  · simpa [Router.remove] using lookupKey_removeKey_self st.senders addr

/-- Witness for C8 at a concrete one-entry table whose channel is
closed. -/
theorem router_deliver_dead_session_evicts_witness :
    lookupKey [(clientAddr, { id := 0, closed := true, queue := [] : Channel })]
      clientAddr = some { id := 0, closed := true, queue := [] } ∧
    ({ id := 0, closed := true, queue := [] : Channel }).closed = true ∧
    (Router.send
        { senders := [(clientAddr, { id := 0, closed := true, queue := [] })]
          udp := { v4log := [], v6log := [] }, nextId := 1 }
        SendOutcome.ok clientAddr [9] true =
      Except.ok (Router.remove
        { senders := [(clientAddr, { id := 0, closed := true, queue := [] })]
          udp := { v4log := [], v6log := [] }, nextId := 1 } clientAddr) ∧
    lookupKey (Router.remove
        { senders := [(clientAddr, { id := 0, closed := true, queue := [] })]
          udp := { v4log := [], v6log := [] }, nextId := 1 } clientAddr).senders
      clientAddr = none) :=
  ⟨rfl, rfl,
    router_deliver_dead_session_evicts
      { senders := [(clientAddr, { id := 0, closed := true, queue := [] })]
        udp := { v4log := [], v6log := [] }, nextId := 1 }
      SendOutcome.ok clientAddr [9] true
      { id := 0, closed := true, queue := [] } rfl rfl⟩

/-- Claim C9: after any sequence of Router operations from the initial
state the session table's keys are pairwise distinct (at most one live
delivery channel per client address), and registering a session twice
for the same address leaves exactly the channel created by the second
registration live for it — a channel distinct from the first
registration's. -/
theorem router_session_table_unique :
    (∀ ops : List RouterOp,
      ((RouterState.run ops).senders.map Prod.fst).Nodup) ∧
    (∀ (st : RouterState) (a : SocketAddr),
      lookupKey ((Router.getReceiver (Router.getReceiver st a).1 a).1).senders a =
        some { id := (Router.getReceiver (Router.getReceiver st a).1 a).2
               closed := false, queue := [] } ∧
      (Router.getReceiver (Router.getReceiver st a).1 a).2 ≠
        (Router.getReceiver st a).2) := by
  refine ⟨fun ops => ?_, fun st a => ⟨?_, ?_⟩⟩
  · exact foldl_step_nodup ops RouterState.initial (by simp [RouterState.initial])
  · simpa [Router.getReceiver] using
      lookupKey_insertKey_self
        (insertKey st.senders a { id := st.nextId, closed := false, queue := [] }) a
        { id := st.nextId + 1, closed := false, queue := [] }
  · simp [Router.getReceiver]

/-- Claim C10: `UdpProxy::send` unwraps the socket result with
`.expect(..)`: when the OS-level send fails it panics with the expect
message (aborting the delivering task, modelled as `Except.error`), and
it completes normally exactly when the socket send succeeds. -/
theorem udpProxy_send_panics_on_socket_error (st : UdpProxyState)
    (data : List Nat) (addr : SocketAddr) :
    UdpProxy.send st SendOutcome.err data addr =
      Except.error "there is an error in the udp proxy in tcp!" ∧
    ∃ u, UdpProxy.send st SendOutcome.ok data addr = Except.ok u := by
  obtain ⟨ip, port⟩ := addr
  refine ⟨?_, ?_⟩
  · cases ip with
    | v4 b => rfl
    | v6 b => rfl
  · cases ip with
    | v4 b => exact ⟨_, rfl⟩
    | v6 b => exact ⟨_, rfl⟩
